import Mathlib

/-!
Verification of the session-establishment and audio-streaming pipeline of
`zoom_audio_bot.py` (class `ZoomAudioBot`).

The Python source is shallowly embedded as follows:

* `jwt.encode(payload, key, algorithm)` (external library) is modelled as an abstract
  token constructor `jwtEncode` recording the payload, signing key and algorithm:
  a real JWT embeds its payload verbatim (base64url of the JSON), so the encoding is
  injective in the payload, and two tokens are equal iff payload, key and algorithm agree.
* Python's decimal rendering `str(n)` of an integer (used by the f-string
  `f'{self.sdk_key}{meeting_id}{timestamp}{1}'`) is embedded as the executable decimal
  renderer `pyStr`, proved injective below.
* Wall-clock reads (`datetime.now().timestamp()`, `time.time()`) and all network and
  decoder nondeterminism are supplied by an explicit environment `Env`; the observable
  behaviour of a run is a trace of `Event`s plus an `Outcome`.
* `async with websockets.connect(...) as websocket:` closes the underlying connection
  whenever the block is exited - including exit via `return websocket` - so the handle
  handed back by `_connect_to_meeting` refers to an already-closed connection; the
  embedding records that close as a `closeCall` event and marks the returned handle
  with `isOpen := false`.
-/

namespace ZoomAudioBot

/-- The credential strings read once at startup (`ZOOM_API_KEY`, `ZOOM_API_SECRET`,
`ZOOM_SDK_KEY`, `ZOOM_SDK_SECRET`). -/
structure Creds where
  api_key : String
  api_secret : String
  sdk_key : String
  sdk_secret : String
deriving DecidableEq

/-- The two payload shapes the source passes to `jwt.encode`:
`{'iss': ..., 'exp': ...}` in `_generate_jwt_token` and `{'hash': msg}` in
`_generate_meeting_signature`. -/
inductive JwtPayload where
  | issExp (iss : String) (exp : Nat)
  | hash (msg : String)
deriving DecidableEq

/-- Abstract model of an encoded JWT: a real token determines its payload, and is
produced from a signing key and an algorithm name. -/
structure JwtToken where
  payload : JwtPayload
  key : String
  alg : String
deriving DecidableEq

/-- `jwt.encode(payload, key, algorithm=alg)`. -/
def jwtEncode (payload : JwtPayload) (key : String) (alg : String) : JwtToken :=
  { payload := payload, key := key, alg := alg }

/-! ### Python's `str` on integers

`pyStrNat`/`pyStr` embed Python's decimal rendering of an `int`.  They are
executable (structural recursion on a fuel argument) so that concrete runs
evaluate, and injectivity is proved via the evaluation map `evalDigits`. -/

/-- Decimal digits of `n`, most significant first; `fuel` bounds the recursion depth
(`fuel > n` is always enough, since `n / 10 < n` for `n ≥ 10`). -/
def natDigitsAux : Nat → Nat → List Char
  | 0, _ => []
  | fuel + 1, n =>
    if n < 10 then [Nat.digitChar n]
    else natDigitsAux fuel (n / 10) ++ [Nat.digitChar (n % 10)]

/-- Python `str(n)` for a natural number. -/
def pyStrNat (n : Nat) : String := ⟨natDigitsAux (n + 1) n⟩

/-- Python `str(i)` for an integer (a `-` sign followed by the digits when negative). -/
def pyStr : Int → String
  | Int.ofNat n => pyStrNat n
  | Int.negSucc n => "-" ++ pyStrNat (n + 1)

/-! ### The token generators (`_generate_jwt_token`, `_generate_meeting_signature`) -/

/-- `_generate_jwt_token` (lines 29-39): `jwt.encode({'iss': api_key,
'exp': datetime.now().timestamp() + 5000}, api_secret, algorithm='HS256')`.
The wall-clock read `datetime.now().timestamp()` (seconds) is the argument `nowS`. -/
def generate_jwt_token (c : Creds) (nowS : Nat) : JwtToken :=
  jwtEncode (JwtPayload.issExp c.api_key (nowS + 5000)) c.api_secret "HS256"

/-- `_generate_meeting_signature` (lines 68-77):
`timestamp = int(time.time() * 1000) - 30000`;
`msg = f'{self.sdk_key}{meeting_id}{timestamp}{1}'`;
`jwt.encode({'hash': msg}, sdk_secret, algorithm='HS256')`.
The wall-clock read `int(time.time() * 1000)` (milliseconds) is the argument `nowMs`. -/
def generate_meeting_signature (c : Creds) (nowMs : Nat) (meeting_id : String) : JwtToken :=
  let timestamp : Int := (nowMs : Int) - 30000
  let msg : String := c.sdk_key ++ meeting_id ++ pyStr timestamp ++ pyStrNat 1
  jwtEncode (JwtPayload.hash msg) c.sdk_secret "HS256"

/-- The signature generator as the spec words it: the payload binds the SDK key, the
meeting identifier, the backdated timestamp and the fixed participant role constant
`role = 0`.  This definition follows the spec's words and exists only to be compared
with `generate_meeting_signature`, which is translated from the source. -/
def spec_generate_meeting_signature (c : Creds) (nowMs : Nat) (meeting_id : String) : JwtToken :=
  let timestamp : Int := (nowMs : Int) - 30000
  let msg : String := c.sdk_key ++ meeting_id ++ pyStr timestamp ++ pyStrNat 0
  jwtEncode (JwtPayload.hash msg) c.sdk_secret "HS256"

/-- Issuer (`iss`) claim of a token, when present. -/
def issuerClaim : JwtToken → Option String
  | { payload := JwtPayload.issExp i _, .. } => some i
  | _ => none

/-- Expiry (`exp`) claim of a token, when present. -/
def expiryClaim : JwtToken → Option Nat
  | { payload := JwtPayload.issExp _ e, .. } => some e
  | _ => none

/-- Python's substring test `needle in hay`. -/
def strIn (needle hay : String) : Bool :=
  (List.range (hay.length + 1)).any fun i => needle.toList.isPrefixOf (hay.toList.drop i)

/-! ### Python `range` and the frame partition

`play_audio_to_meeting` slices the decoded buffer with
`for i in range(0, len(audio_data), chunk_size): chunk = audio_data[i:i + chunk_size]`.
`pyRange` embeds Python's `range(start, stop, step)` for positive `step`; the fuel
argument (`stop - start` is always enough, since `start` grows by `step ≥ 1` each
iteration) only makes the recursion structural. -/

def pyRangeGo (step : Nat) : Nat → Nat → Nat → List Nat
  | 0, _, _ => []
  | fuel + 1, start, stop =>
    if start < stop then start :: pyRangeGo step fuel (start + step) stop else []

/-- Python `range(start, stop, step)` for `step > 0`. -/
def pyRange (start stop step : Nat) : List Nat := pyRangeGo step (stop - start) start stop

/-- `chunk_size = 1024 * 16` (line 99). -/
def chunkSize : Nat := 1024 * 16

/-- The frames the loop at lines 102-103 slices out of `data`, for frame size `F`:
`data[i : i + F]` for `i in range(0, len(data), F)` (a Python slice `data[i:i+F]`
is `(data.drop i).take F`). -/
def chunksF (F : Nat) (data : List Nat) : List (List Nat) :=
  (pyRange 0 data.length F).map fun i => (data.drop i).take F

/-- The frames of the streaming loop at the source's frame size `chunk_size`. -/
def chunks (data : List Nat) : List (List Nat) := chunksF chunkSize data

/-! ### The execution model

A run of the bot is driven by an environment `Env` supplying the wall-clock values and
the nondeterministic outcomes of the external world (transport, remote endpoint, audio
decoder).  The observable behaviour is a trace of `Event`s plus an `Outcome`. -/

/-- The handle `websockets.connect` yields.  `isOpen` records whether the underlying
connection is still open when the handle is observed. -/
structure WS where
  isOpen : Bool
deriving DecidableEq

/-- The `join_data` dictionary built at lines 49-55. -/
structure JoinData where
  meetingNumber : String
  role : Nat
  sdkKey : String
  signature : JwtToken
  password : String
deriving DecidableEq

/-- Observable events of a run.  `print` carries the static prefix of the printed
message (f-string interpolations of runtime values such as the exception text are
appended in the source); `sendAudio` carries the raw bytes of the frame (the wire
encoding at line 107 is the lossless `chunk.hex()`); `closeCall` is one invocation of
`close()` on the websocket connection; `sleep` is `asyncio.sleep(0.1)`. -/
inductive Event where
  | connectOpen
  | sendJoin (jd : JoinData)
  | recvResponse (r : String)
  | closeCall
  | sendAudio (chunk : List Nat)
  | sleep
  | print (s : String)
deriving DecidableEq

/-- Exceptions the embedded fragment can raise out of a step (all of them are
`Exception`s, hence caught by the `except Exception` clause at line 114). -/
inductive PyErr where
  | connectFailed
  | recvFailed
deriving DecidableEq

/-- The ambient world of one invocation: wall-clock readings and the behaviour of the
transport, the remote endpoint and the audio decoder. -/
structure Env where
  /-- `datetime.now().timestamp()` in seconds, read by `_generate_jwt_token`. -/
  nowS : Nat
  /-- `int(time.time() * 1000)`, read by `_generate_meeting_signature`. -/
  nowMs : Nat
  /-- whether `websockets.connect(self.ws_url)` succeeds -/
  connectOk : Bool
  /-- whether `websocket.recv()` yields a message (rather than a transport error) -/
  recvOk : Bool
  /-- the single response message received at line 65 -/
  response : String
  /-- whether `AudioSegment.from_mp3(mp3_path)` succeeds -/
  decodeOk : Bool
  /-- `audio.raw_data`: the decoded byte buffer -/
  audioData : List Nat
  /-- whether the transport lets the i-th audio send through (when the socket is open) -/
  sendOk : Nat → Bool

/-- `_connect_to_meeting` (lines 41-66).  The body computes `headers` (including a
fresh JWT) that the `websockets.connect` call never uses, builds `join_data`, then
inside `async with websockets.connect(self.ws_url) as websocket:` sends the join
request, awaits exactly one response, and returns `websocket` when `'success' in
response`, else `None`.  Exiting the `async with` block - also via `return` - closes
the connection, recorded as the trailing `closeCall`; the returned handle therefore
has `isOpen := false`. -/
def connect_to_meeting (c : Creds) (env : Env) (meeting_id : String)
    (password : Option String) : List Event × Except PyErr (Option WS) :=
  let _headers := generate_jwt_token c env.nowS
  let join_data : JoinData :=
    { meetingNumber := meeting_id
      role := 0
      sdkKey := c.sdk_key
      signature := generate_meeting_signature c env.nowMs meeting_id
      password := match password with | some p => p | none => "" }
  if env.connectOk then
    if env.recvOk then
      ([Event.connectOpen, Event.sendJoin join_data, Event.recvResponse env.response,
        Event.closeCall],
       Except.ok (if strIn "success" env.response then some { isOpen := false } else none))
    else
      ([Event.connectOpen, Event.sendJoin join_data, Event.closeCall],
       Except.error PyErr.recvFailed)
  else
    ([], Except.error PyErr.connectFailed)

/-- The streaming loop at lines 102-110, iterating over the frames in order.  Each
iteration awaits `websocket.send(...)` - which raises if the connection is closed or
the transport fails - then sleeps 0.1 s.  Returns the emitted events and whether the
loop ran to completion (`false` = a send raised). -/
def streamEvents (isOpen : Bool) (sendOk : Nat → Bool) : List (List Nat) → Nat → List Event × Bool
  | [], _ => ([], true)
  | chunk :: rest, i =>
    if isOpen && sendOk i then
      let r := streamEvents isOpen sendOk rest (i + 1)
      (Event.sendAudio chunk :: Event.sleep :: r.1, r.2)
    else
      ([], false)

/-- Result of executing the `try` block (lines 86-112): the events it emitted, the
binding state of the local variable `websocket` (`none` = the name was never
assigned), and whether the body raised (such an exception is caught at line 114). -/
structure TryResult where
  events : List Event
  websocketVar : Option (Option WS)
  raised : Bool

/-- The `try` block of `play_audio_to_meeting` (lines 86-112). -/
def tryBody (c : Creds) (env : Env) (meeting_id : String) (mp3_path : String)
    (password : Option String) : TryResult :=
  let ev0 := Event.print ("Attempting to join meeting " ++ meeting_id ++ "...")
  let conn := connect_to_meeting c env meeting_id password
  match conn.2 with
  | Except.error _ =>
    -- `websocket = await self._connect_to_meeting(...)` raised: the name is never bound
    { events := ev0 :: conn.1, websocketVar := none, raised := true }
  | Except.ok none =>
    -- `if not websocket:` - falsy value: print and return (the `finally` still runs)
    { events := ev0 :: conn.1 ++ [Event.print "Failed to connect to meeting"],
      websocketVar := some none, raised := false }
  | Except.ok (some ws) =>
    let evJ := [Event.print "Successfully joined meeting",
                Event.print ("Preparing to play: " ++ mp3_path)]
    if env.decodeOk then
      -- `audio_data = self._prepare_audio(mp3_path)` (lines 79-82), then the loop
      let s := streamEvents ws.isOpen env.sendOk (chunks env.audioData) 0
      if s.2 then
        { events := ev0 :: conn.1 ++ evJ ++ s.1 ++ [Event.print "Finished playing audio"],
          websocketVar := some (some ws), raised := false }
      else
        { events := ev0 :: conn.1 ++ evJ ++ s.1, websocketVar := some (some ws),
          raised := true }
    else
      -- `AudioSegment.from_mp3` raised
      { events := ev0 :: conn.1 ++ evJ, websocketVar := some (some ws), raised := true }

/-- How `play_audio_to_meeting` returns to its caller: a plain `return None`
(`normal`), or the `NameError` the `finally` block raises when it evaluates
`if websocket:` and the name was never bound. -/
inductive Outcome where
  | normal
  | nameError
deriving DecidableEq

/-- The `finally` block (lines 117-119): evaluate `if websocket:`.  An unbound name
raises `NameError`; `None` is falsy (no close); a connection object is truthy, so
`await websocket.close()` is called. -/
def finallyStage : Option (Option WS) → List Event × Outcome
  | none => ([], Outcome.nameError)
  | some none => ([], Outcome.normal)
  | some (some _) => ([Event.closeCall], Outcome.normal)

/-- `play_audio_to_meeting` (lines 84-119): the `try` body, then - when the body
raised - the `except` clause's diagnostic print, then the `finally` block. -/
def play_audio_to_meeting (c : Creds) (env : Env) (meeting_id : String)
    (mp3_path : String) (password : Option String) : List Event × Outcome :=
  let t := tryBody c env meeting_id mp3_path password
  let evE := if t.raised then [Event.print "Error during playback"] else []
  let f := finallyStage t.websocketVar
  (t.events ++ evE ++ f.1, f.2)

/-! ### Trace observations -/

/-- Is this event a `close()` invocation? -/
def isClose : Event → Bool
  | Event.closeCall => true
  | _ => false

/-- Is this event the opening of a transport connection? -/
def isOpenEv : Event → Bool
  | Event.connectOpen => true
  | _ => false

/-- Is this event the sending of a join request? -/
def isJoinEv : Event → Bool
  | Event.sendJoin _ => true
  | _ => false

/-- Is this event the receipt of a response message? -/
def isRecvEv : Event → Bool
  | Event.recvResponse _ => true
  | _ => false

/-- The bytes of an `action="audio"` message, if this event is one. -/
def audioPayload : Event → Option (List Nat)
  | Event.sendAudio chunk => some chunk
  | _ => none

/-- Number of `close()` invocations in a trace. -/
def closeCount (tr : List Event) : Nat := tr.countP isClose

/-- Number of connection openings in a trace. -/
def openCount (tr : List Event) : Nat := tr.countP isOpenEv

/-- Number of join requests sent in a trace. -/
def joinCount (tr : List Event) : Nat := tr.countP isJoinEv

/-- Number of response messages received in a trace. -/
def recvCount (tr : List Event) : Nat := tr.countP isRecvEv

/-- The audio frames sent in a trace, in order. -/
def audioSends (tr : List Event) : List (List Nat) := tr.filterMap audioPayload

/-! ### Concrete credentials and environments for concrete runs -/

/-- Concrete credential strings. -/
def sampleCreds : Creds :=
  { api_key := "apiKey", api_secret := "apiSecret", sdk_key := "sdkKey",
    sdk_secret := "sdkSecret" }

/-- Join acknowledged (`'success'` in the response), decode succeeds, empty decoded
buffer, transport would accept every send. -/
def envAck : Env :=
  { nowS := 100, nowMs := 30000, connectOk := true, recvOk := true,
    response := "success", decodeOk := true, audioData := [], sendOk := fun _ => true }

/-- Scenario A of the spec: join immediately acknowledged, a 40000-byte decoded
buffer, transport would accept every send. -/
def envScenarioA : Env :=
  { nowS := 100, nowMs := 30000, connectOk := true, recvOk := true,
    response := "success", decodeOk := true, audioData := List.replicate 40000 0,
    sendOk := fun _ => true }

/-- The join response carries no success indicator. -/
def envNoAck : Env :=
  { nowS := 100, nowMs := 30000, connectOk := true, recvOk := true,
    response := "denied", decodeOk := true, audioData := [0, 1, 2],
    sendOk := fun _ => true }

/-- `websockets.connect` itself raises (unreachable endpoint). -/
def envConnectFail : Env :=
  { nowS := 100, nowMs := 30000, connectOk := false, recvOk := true,
    response := "", decodeOk := true, audioData := [], sendOk := fun _ => true }

theorem pyRangeGo_congr (step : Nat) (hstep : 0 < step) :
    ∀ fuel₁ fuel₂ start stop, stop - start ≤ fuel₁ → stop - start ≤ fuel₂ →
      pyRangeGo step fuel₁ start stop = pyRangeGo step fuel₂ start stop := by
  intro fuel₁
  induction fuel₁ with
  | zero =>
    intro fuel₂ start stop h₁ h₂
    have hlt : ¬ start < stop := by omega
    cases fuel₂ with
    | zero => rfl
    | succ f => simp [pyRangeGo, hlt]
  | succ f₁ ih =>
    intro fuel₂ start stop h₁ h₂
    by_cases hlt : start < stop
    · cases fuel₂ with
      | zero => omega
      | succ f₂ =>
        simp only [pyRangeGo, hlt, if_true]
        exact congrArg _ (ih f₂ (start + step) stop (by omega) (by omega))
    · cases fuel₂ with
      | zero => simp [pyRangeGo, hlt]
      | succ f₂ => simp [pyRangeGo, hlt]

/-- Unfolding equation for `pyRange` (positive step). -/
theorem pyRange_eq (step : Nat) (hstep : 0 < step) (start stop : Nat) :
    pyRange start stop step =
      if start < stop then start :: pyRange (start + step) stop step else [] := by
  by_cases hlt : start < stop
  · have h : stop - start = (stop - start - 1) + 1 := by omega
    rw [if_pos hlt, pyRange, h]
    simp only [pyRangeGo, hlt, if_true]
    exact congrArg _ (pyRangeGo_congr step hstep _ _ _ _ (by omega) (by omega))
  · rw [if_neg hlt, pyRange, show stop - start = 0 from by omega]
    rfl

theorem pyRangeGo_shift (step k : Nat) :
    ∀ fuel start stop, pyRangeGo step fuel (start + k) (stop + k) =
      (pyRangeGo step fuel start stop).map (· + k) := by
  intro fuel
  induction fuel with
  | zero => intro start stop; rfl
  | succ f ih =>
    intro start stop
    by_cases hlt : start < stop
    · have hlt' : start + k < stop + k := by omega
      simp only [pyRangeGo, hlt, hlt', if_true, List.map_cons]
      have h : start + k + step = start + step + k := by omega
      rw [h, ih]
    · have hlt' : ¬ start + k < stop + k := by omega
      simp [pyRangeGo, hlt, hlt']

theorem pyRange_shift (start stop step k : Nat) :
    pyRange (start + k) (stop + k) step = (pyRange start stop step).map (· + k) := by
  have h : stop + k - (start + k) = stop - start := by omega
  simp only [pyRange, h]
  exact pyRangeGo_shift step k _ start stop

theorem chunksF_nil (F : Nat) : chunksF F [] = [] := rfl

/-- Unfolding of the frame partition: the first frame is the first `F` bytes, the rest
are the frames of the remainder. -/
theorem chunksF_cons (F : Nat) (hF : 0 < F) (data : List Nat) (hd : data ≠ []) :
    chunksF F data = data.take F :: chunksF F (data.drop F) := by
  have hL : 0 < data.length := List.length_pos.mpr hd
  conv_lhs => rw [chunksF]
  rw [pyRange_eq F hF, if_pos hL, List.map_cons]
  simp only [Nat.zero_add, List.drop_zero]
  refine congrArg₂ _ rfl ?_
  by_cases hFL : data.length ≤ F
  · have h1 : pyRange F data.length F = [] := by
      rw [pyRange_eq F hF, if_neg (by omega)]
    have h2 : data.drop F = [] := List.drop_eq_nil_of_le hFL
    rw [h1, h2, chunksF_nil, List.map_nil]
  · have hshift := pyRange_shift 0 (data.length - F) F F
    rw [Nat.zero_add] at hshift
    rw [show data.length - F + F = data.length from by omega] at hshift
    rw [hshift, List.map_map, chunksF, List.length_drop]
    refine List.map_congr_left fun i _ => ?_
    simp only [Function.comp_apply]
    rw [List.drop_drop, Nat.add_comm F i]

theorem chunksF_flatten (F : Nat) (hF : 0 < F) (data : List Nat) :
    (chunksF F data).flatten = data := by
  suffices H : ∀ n (data : List Nat), data.length ≤ n → (chunksF F data).flatten = data from
    H data.length data le_rfl
  intro n
  induction n with
  | zero =>
    intro data h
    have : data = [] := List.eq_nil_of_length_eq_zero (by omega)
    simp [this, chunksF_nil]
  | succ n ih =>
    intro data h
    by_cases hd : data = []
    · simp [hd, chunksF_nil]
    · rw [chunksF_cons F hF data hd, List.flatten_cons,
        ih (data.drop F) (by rw [List.length_drop]; omega), List.take_append_drop]

theorem chunksF_length (F : Nat) (hF : 0 < F) (data : List Nat) :
    (chunksF F data).length = (data.length + F - 1) / F := by
  suffices H : ∀ n (data : List Nat), data.length ≤ n →
      (chunksF F data).length = (data.length + F - 1) / F from H data.length data le_rfl
  intro n
  induction n with
  | zero =>
    intro data h
    have he : data = [] := List.eq_nil_of_length_eq_zero (by omega)
    subst he
    simp [chunksF_nil, Nat.div_eq_of_lt (by omega : F - 1 < F)]
  | succ n ih =>
    intro data h
    by_cases hd : data = []
    · subst hd
      simp [chunksF_nil, Nat.div_eq_of_lt (by omega : F - 1 < F)]
    · have hL : 0 < data.length := List.length_pos.mpr hd
      rw [chunksF_cons F hF data hd, List.length_cons,
        ih (data.drop F) (by rw [List.length_drop]; omega), List.length_drop]
      by_cases hFL : data.length ≤ F
      · have h1 : data.length - F = 0 := by omega
        rw [h1, Nat.zero_add, Nat.div_eq_of_lt (by omega : F - 1 < F)]
        have h2 : (data.length + F - 1) / F = 1 :=
          Nat.div_eq_of_lt_le (by omega) (by omega)
        omega
      · have h1 : data.length - F + F - 1 = (data.length - F - 1) + F := by omega
        have h2 : data.length + F - 1 = (data.length - 1) + F := by omega
        rw [h1, h2, Nat.add_div_right _ hF, Nat.add_div_right _ hF]
        have h3 : data.length - F - 1 + F = data.length - 1 := by omega
        rw [← h3, Nat.add_div_right _ hF]

theorem chunksF_mem (F : Nat) (hF : 0 < F) (data : List Nat) :
    ∀ c ∈ chunksF F data, c ≠ [] ∧ c.length ≤ F := by
  suffices H : ∀ n (data : List Nat), data.length ≤ n →
      ∀ c ∈ chunksF F data, c ≠ [] ∧ c.length ≤ F from H data.length data le_rfl
  intro n
  induction n with
  | zero =>
    intro data h c hc
    have he : data = [] := List.eq_nil_of_length_eq_zero (by omega)
    rw [he, chunksF_nil] at hc
    exact absurd hc (List.not_mem_nil c)
  | succ n ih =>
    intro data h c hc
    by_cases hd : data = []
    · rw [hd, chunksF_nil] at hc
      exact absurd hc (List.not_mem_nil c)
    · rw [chunksF_cons F hF data hd, List.mem_cons] at hc
      rcases hc with hc | hc
      · subst hc
        constructor
        · rw [Ne, List.take_eq_nil_iff]
          push_neg
          exact ⟨by omega, hd⟩
        · rw [List.length_take]
          omega
      · exact ih (data.drop F) (by rw [List.length_drop]; omega) c hc

theorem chunksF_full (F : Nat) (hF : 0 < F) (data : List Nat) :
    ∀ i, i + 1 < (chunksF F data).length → ((chunksF F data).getD i []).length = F := by
  suffices H : ∀ n (data : List Nat), data.length ≤ n →
      ∀ i, i + 1 < (chunksF F data).length → ((chunksF F data).getD i []).length = F from
    H data.length data le_rfl
  intro n
  induction n with
  | zero =>
    intro data h i hi
    have he : data = [] := List.eq_nil_of_length_eq_zero (by omega)
    rw [he, chunksF_nil] at hi
    simp at hi
  | succ n ih =>
    intro data h i hi
    by_cases hd : data = []
    · rw [hd, chunksF_nil] at hi
      simp at hi
    · rw [chunksF_cons F hF data hd] at hi ⊢
      cases i with
      | zero =>
        rw [List.length_cons] at hi
        have htail : chunksF F (data.drop F) ≠ [] := by
          intro hnil
          rw [hnil] at hi
          simp at hi
        have hdrop : data.drop F ≠ [] := by
          intro hnil
          rw [hnil, chunksF_nil] at htail
          exact htail rfl
        have hFL : F < data.length := by
          by_contra hc
          exact hdrop (List.drop_eq_nil_of_le (by omega))
        simp only [List.getD_cons_zero, List.length_take]
        omega
      | succ i =>
        rw [List.length_cons] at hi
        simp only [List.getD_cons_succ]
        exact ih (data.drop F) (by rw [List.length_drop]; omega) i (by omega)

/-! ### Injectivity of the decimal rendering

Python's `str` on integers is injective; we prove it for the embedding `pyStr` by
evaluating the digit string back to the number it denotes. -/

theorem digitChar_val : ∀ m, m < 10 → (Nat.digitChar m).toNat - 48 = m := by decide

theorem digitChar_ge : ∀ m, m < 10 → 48 ≤ (Nat.digitChar m).toNat := by decide

theorem natDigitsAux_eval : ∀ fuel n, n < fuel → ∀ a : Nat,
    (natDigitsAux fuel n).foldl (fun acc c => 10 * acc + (c.toNat - 48)) a
      = a * 10 ^ (natDigitsAux fuel n).length + n := by
  intro fuel
  induction fuel with
  | zero => intro n hn; exact absurd hn (Nat.not_lt_zero n)
  | succ fuel ih =>
    intro n hn a
    by_cases h10 : n < 10
    · simp only [natDigitsAux, if_pos h10, List.foldl_cons, List.foldl_nil,
        List.length_cons, List.length_nil, Nat.zero_add]
      rw [digitChar_val n h10, pow_one]
      omega
    · have hdiv : n / 10 < fuel := by
        have h2 : n / 10 < n := Nat.div_lt_self (by omega) (by omega)
        omega
      simp only [natDigitsAux, if_neg h10, List.foldl_append, List.length_append,
        List.foldl_cons, List.foldl_nil, List.length_cons, List.length_nil, Nat.zero_add]
      rw [ih (n / 10) hdiv a, digitChar_val (n % 10) (Nat.mod_lt n (by omega))]
      rw [pow_succ, ← Nat.mul_assoc]
      generalize a * 10 ^ (natDigitsAux fuel (n / 10)).length = y
      omega

theorem pyStrNat_data_eval (n : Nat) :
    (pyStrNat n).data.foldl (fun acc c => 10 * acc + (c.toNat - 48)) 0 = n := by
  have h := natDigitsAux_eval (n + 1) n (by omega) 0
  have hd : (pyStrNat n).data = natDigitsAux (n + 1) n := rfl
  rw [hd, h, Nat.zero_mul, Nat.zero_add]

theorem pyStrNat_inj {m n : Nat} (h : pyStrNat m = pyStrNat n) : m = n := by
  have hm := pyStrNat_data_eval m
  have hn := pyStrNat_data_eval n
  rw [h] at hm
  omega

theorem natDigitsAux_head : ∀ fuel n, n < fuel →
    ∃ c cs, natDigitsAux fuel n = c :: cs ∧ 48 ≤ c.toNat := by
  intro fuel
  induction fuel with
  | zero => intro n hn; exact absurd hn (Nat.not_lt_zero n)
  | succ fuel ih =>
    intro n hn
    by_cases h10 : n < 10
    · exact ⟨Nat.digitChar n, [], by simp [natDigitsAux, h10], digitChar_ge n h10⟩
    · have hdiv : n / 10 < fuel := by
        have h2 : n / 10 < n := Nat.div_lt_self (by omega) (by omega)
        omega
      obtain ⟨c, cs, hEq, hc⟩ := ih (n / 10) hdiv
      exact ⟨c, cs ++ [Nat.digitChar (n % 10)], by simp [natDigitsAux, h10, hEq], hc⟩

theorem pyStrNat_ne_dash (m n : Nat) : pyStrNat m ≠ "-" ++ pyStrNat n := by
  intro h
  obtain ⟨c, cs, hEq, hc⟩ := natDigitsAux_head (m + 1) m (by omega)
  have hdata := congrArg String.data h
  have hL : (pyStrNat m).data = natDigitsAux (m + 1) m := rfl
  rw [hL, hEq, String.data_append, show ("-" : String).data = ['-'] from rfl] at hdata
  injection hdata with h1 h2
  rw [h1] at hc
  exact absurd hc (by decide)

theorem pyStr_inj {i j : Int} (h : pyStr i = pyStr j) : i = j := by
  cases i with
  | ofNat m =>
    cases j with
    | ofNat n => exact congrArg Int.ofNat (pyStrNat_inj h)
    | negSucc n => exact absurd h (pyStrNat_ne_dash m (n + 1))
  | negSucc m =>
    cases j with
    | ofNat n => exact absurd h.symm (pyStrNat_ne_dash n (m + 1))
    | negSucc n =>
      have hdata := congrArg String.data h
      simp only [pyStr, String.data_append] at hdata
      have hmn : pyStrNat (m + 1) = pyStrNat (n + 1) :=
        String.ext (List.append_cancel_left hdata)
      have h2 := pyStrNat_inj hmn
      exact congrArg Int.negSucc (by omega)

/-- Different derived timestamps give different join signatures: the payload embeds the
decimal rendering of the timestamp between a fixed prefix and a fixed suffix, and both
the string concatenations and the rendering are injective. -/
theorem generate_meeting_signature_inj (c : Creds) (mid : String) {n1 n2 : Nat}
    (h : (n1 : Int) - 30000 ≠ (n2 : Int) - 30000) :
    generate_meeting_signature c n1 mid ≠ generate_meeting_signature c n2 mid := by
  intro hEq
  apply h
  apply pyStr_inj
  have hp1 : (generate_meeting_signature c n1 mid).payload
      = JwtPayload.hash (c.sdk_key ++ mid ++ pyStr ((n1 : Int) - 30000) ++ pyStrNat 1) := rfl
  have hp2 : (generate_meeting_signature c n2 mid).payload
      = JwtPayload.hash (c.sdk_key ++ mid ++ pyStr ((n2 : Int) - 30000) ++ pyStrNat 1) := rfl
  have hp := congrArg JwtToken.payload hEq
  rw [hp1, hp2] at hp
  injection hp with hmsg
  have hd := congrArg String.data hmsg
  simp only [String.data_append] at hd
  exact String.ext (List.append_cancel_left (List.append_cancel_right hd))

/-! ### Streaming-loop lemmas -/

theorem streamEvents_mem (o : Bool) (s : Nat → Bool) :
    ∀ (cs : List (List Nat)) (i : Nat), ∀ e ∈ (streamEvents o s cs i).1,
      (∃ ch, e = Event.sendAudio ch) ∨ e = Event.sleep := by
  intro cs
  induction cs with
  | nil => intro i e he; exact absurd he (List.not_mem_nil e)
  | cons c rest ih =>
    intro i e he
    cases hc : o && s i with
    | false =>
      rw [streamEvents, hc] at he
      exact absurd he (List.not_mem_nil e)
    | true =>
      rw [streamEvents, hc] at he
      simp only [if_true, List.mem_cons] at he
      rcases he with h | h | h
      · exact Or.inl ⟨c, h⟩
      · exact Or.inr h
      · exact ih (i + 1) e h

theorem streamEvents_openCount (o : Bool) (s : Nat → Bool) (cs : List (List Nat)) (i : Nat) :
    openCount (streamEvents o s cs i).1 = 0 := by
  rw [openCount, List.countP_eq_zero]
  intro e he
  rcases streamEvents_mem o s cs i e he with ⟨ch, rfl⟩ | rfl <;> simp [isOpenEv]

theorem streamEvents_joinCount (o : Bool) (s : Nat → Bool) (cs : List (List Nat)) (i : Nat) :
    joinCount (streamEvents o s cs i).1 = 0 := by
  rw [joinCount, List.countP_eq_zero]
  intro e he
  rcases streamEvents_mem o s cs i e he with ⟨ch, rfl⟩ | rfl <;> simp [isJoinEv]

theorem streamEvents_audioSends (o : Bool) (s : Nat → Bool) :
    ∀ (cs : List (List Nat)) (i : Nat),
      ∃ k, audioSends (streamEvents o s cs i).1 = cs.take k := by
  intro cs
  induction cs with
  | nil => intro i; exact ⟨0, rfl⟩
  | cons c rest ih =>
    intro i
    cases hc : o && s i with
    | false => exact ⟨0, by rw [streamEvents, hc]; rfl⟩
    | true =>
      obtain ⟨k, hk⟩ := ih (i + 1)
      refine ⟨k + 1, ?_⟩
      rw [streamEvents, hc]
      simp only [if_true, audioSends, List.filterMap_cons, audioPayload, List.take_succ_cons]
      rw [← audioSends, hk]

/-! ### Trace-observation distribution lemmas -/

theorem openCount_nil : openCount [] = 0 := rfl

theorem openCount_cons (e : Event) (l : List Event) :
    openCount (e :: l) = openCount l + if isOpenEv e then 1 else 0 :=
  List.countP_cons _ _ _

theorem openCount_append (a b : List Event) :
    openCount (a ++ b) = openCount a + openCount b :=
  List.countP_append _ _ _

theorem joinCount_nil : joinCount [] = 0 := rfl

theorem joinCount_cons (e : Event) (l : List Event) :
    joinCount (e :: l) = joinCount l + if isJoinEv e then 1 else 0 :=
  List.countP_cons _ _ _

theorem joinCount_append (a b : List Event) :
    joinCount (a ++ b) = joinCount a + joinCount b :=
  List.countP_append _ _ _

theorem closeCount_nil : closeCount [] = 0 := rfl

theorem closeCount_cons (e : Event) (l : List Event) :
    closeCount (e :: l) = closeCount l + if isClose e then 1 else 0 :=
  List.countP_cons _ _ _

theorem closeCount_append (a b : List Event) :
    closeCount (a ++ b) = closeCount a + closeCount b :=
  List.countP_append _ _ _

theorem audioSends_nil : audioSends [] = [] := rfl

theorem audioSends_append (a b : List Event) :
    audioSends (a ++ b) = audioSends a ++ audioSends b :=
  List.filterMap_append _ _ _

/-- The outcome of a run is always a plain `return None`, except for the `NameError`
raised by the cleanup stage when the local `websocket` was never bound. -/
theorem play_outcome_cases (c : Creds) (env : Env) (mid path : String) (pwd : Option String) :
    (play_audio_to_meeting c env mid path pwd).2 = Outcome.normal ∨
    (play_audio_to_meeting c env mid path pwd).2 = Outcome.nameError := by
  cases h : (tryBody c env mid path pwd).websocketVar with
  | none => exact Or.inr (by simp [play_audio_to_meeting, finallyStage, h])
  | some v =>
    cases v with
    | none => exact Or.inl (by simp [play_audio_to_meeting, finallyStage, h])
    | some ws => exact Or.inl (by simp [play_audio_to_meeting, finallyStage, h])

/-- One connection attempt and one join request at most, and the audio messages sent
are an in-order take-prefix of the frame sequence (no frame re-sent or re-ordered). -/
theorem play_trace_shape (c : Creds) (env : Env) (mid path : String) (pwd : Option String) :
    openCount (play_audio_to_meeting c env mid path pwd).1 ≤ 1 ∧
    joinCount (play_audio_to_meeting c env mid path pwd).1 ≤ 1 ∧
    ∃ k, audioSends (play_audio_to_meeting c env mid path pwd).1 =
      (chunks env.audioData).take k := by
  cases hc : env.connectOk with
  | false =>
    refine ⟨?_, ?_, ⟨0, ?_⟩⟩ <;>
      simp [play_audio_to_meeting, tryBody, connect_to_meeting, hc, finallyStage,
        openCount_cons, openCount_append, openCount_nil, joinCount_cons, joinCount_append,
        joinCount_nil, audioSends_append, audioSends_nil, audioSends,
        isOpenEv, isJoinEv, audioPayload]
  | true =>
    cases hr : env.recvOk with
    | false =>
      refine ⟨?_, ?_, ⟨0, ?_⟩⟩ <;>
        simp [play_audio_to_meeting, tryBody, connect_to_meeting, hc, hr, finallyStage,
          openCount_cons, openCount_append, openCount_nil, joinCount_cons, joinCount_append,
          joinCount_nil, audioSends_append, audioSends_nil, audioSends,
          isOpenEv, isJoinEv, audioPayload]
    | true =>
      by_cases hs : strIn "success" env.response
      · cases hd : env.decodeOk with
        | false =>
          refine ⟨?_, ?_, ⟨0, ?_⟩⟩ <;>
            simp [play_audio_to_meeting, tryBody, connect_to_meeting, hc, hr, hs, hd,
              finallyStage, openCount_cons, openCount_append, openCount_nil, joinCount_cons,
              joinCount_append, joinCount_nil, audioSends_append, audioSends_nil, audioSends,
              isOpenEv, isJoinEv, audioPayload]
        | true =>
          obtain ⟨k, hk⟩ := streamEvents_audioSends false env.sendOk (chunks env.audioData) 0
          have ho := streamEvents_openCount false env.sendOk (chunks env.audioData) 0
          have hj := streamEvents_joinCount false env.sendOk (chunks env.audioData) 0
          cases hok : (streamEvents false env.sendOk (chunks env.audioData) 0).2 with
          | false =>
            refine ⟨?_, ?_, ⟨k, ?_⟩⟩
            · simp [play_audio_to_meeting, tryBody, connect_to_meeting, hc, hr, hs, hd, hok,
                finallyStage, openCount_cons, openCount_append, openCount_nil,
                isOpenEv, openCount]
              intro a ha
              rcases streamEvents_mem false env.sendOk (chunks env.audioData) 0 a ha with
                ⟨ch, rfl⟩ | rfl <;> rfl
            · simp [play_audio_to_meeting, tryBody, connect_to_meeting, hc, hr, hs, hd, hok,
                finallyStage, joinCount_cons, joinCount_append, joinCount_nil,
                isJoinEv, joinCount]
              intro a ha
              rcases streamEvents_mem false env.sendOk (chunks env.audioData) 0 a ha with
                ⟨ch, rfl⟩ | rfl <;> rfl
            · simp [play_audio_to_meeting, tryBody, connect_to_meeting, hc, hr, hs, hd, hok,
                finallyStage, audioSends_append, audioSends, audioPayload]
              exact hk
          | true =>
            refine ⟨?_, ?_, ⟨k, ?_⟩⟩
            · simp [play_audio_to_meeting, tryBody, connect_to_meeting, hc, hr, hs, hd, hok,
                finallyStage, openCount_cons, openCount_append, openCount_nil,
                isOpenEv, openCount]
              intro a ha
              rcases streamEvents_mem false env.sendOk (chunks env.audioData) 0 a ha with
                ⟨ch, rfl⟩ | rfl <;> rfl
            · simp [play_audio_to_meeting, tryBody, connect_to_meeting, hc, hr, hs, hd, hok,
                finallyStage, joinCount_cons, joinCount_append, joinCount_nil,
                isJoinEv, joinCount]
              intro a ha
              rcases streamEvents_mem false env.sendOk (chunks env.audioData) 0 a ha with
                ⟨ch, rfl⟩ | rfl <;> rfl
            · simp [play_audio_to_meeting, tryBody, connect_to_meeting, hc, hr, hs, hd, hok,
                finallyStage, audioSends_append, audioSends, audioPayload]
              exact hk
      · refine ⟨?_, ?_, ⟨0, ?_⟩⟩ <;>
          simp [play_audio_to_meeting, tryBody, connect_to_meeting, hc, hr, hs, finallyStage,
            openCount_cons, openCount_append, openCount_nil, joinCount_cons, joinCount_append,
            joinCount_nil, audioSends_append, audioSends_nil, audioSends,
            isOpenEv, isJoinEv, audioPayload]

/-- A run whose join is acknowledged and whose decoded buffer has at least one frame:
because the handle returned by `_connect_to_meeting` is closed, the first send raises,
so no audio frame goes out, the error is printed and swallowed, and the run still
returns normally without ever printing the completion message. -/
theorem play_ack_closed_aborts (c : Creds) (env : Env)
    (hc : env.connectOk = true) (hr : env.recvOk = true)
    (hs : strIn "success" env.response = true) (hd : env.decodeOk = true)
    (ch : List Nat) (rest : List (List Nat)) (hcons : chunks env.audioData = ch :: rest) :
    audioSends (play_audio_to_meeting c env "123" "song.mp3" none).1 = [] ∧
    (play_audio_to_meeting c env "123" "song.mp3" none).2 = Outcome.normal ∧
    Event.print "Finished playing audio" ∉
      (play_audio_to_meeting c env "123" "song.mp3" none).1 ∧
    Event.print "Error during playback" ∈
      (play_audio_to_meeting c env "123" "song.mp3" none).1 := by
  refine ⟨?_, ?_, ?_, ?_⟩ <;>
    simp [play_audio_to_meeting, tryBody, connect_to_meeting, hc, hr, hs, hd, hcons,
      streamEvents, finallyStage, audioSends, audioPayload]

/-! ### The claims -/

/-- C1: the claim says the session handle is released exactly once on completion of all
frames and on every error path out of the loop.  In the code the connection is closed
*twice* on the completion path: once when the `async with` block inside
`_connect_to_meeting` exits via `return websocket`, and again by the `finally` block of
`play_audio_to_meeting`.  This run joins successfully and streams an empty buffer, so
the loop completes all (zero) frames and `Finished playing audio` is printed, yet the
trace carries two `close()` invocations. -/
theorem c1_session_closed_twice :
    Event.print "Finished playing audio" ∈
      (play_audio_to_meeting sampleCreds envAck "123" "song.mp3" none).1 ∧
    closeCount (play_audio_to_meeting sampleCreds envAck "123" "song.mp3" none).1 = 2 :=
  ⟨by decide, by decide⟩

/-- C2: the streaming loop partitions a buffer of length `L` into exactly
`⌈L / 16384⌉` consecutive, non-overlapping frames whose in-order concatenation is the
original buffer byte-for-byte; every frame is nonempty and at most 16384 bytes, and
every frame except possibly the last is exactly 16384 bytes. -/
theorem c2_buffer_partition (data : List Nat) :
    chunkSize = 16384 ∧
    (chunks data).length = (data.length + chunkSize - 1) / chunkSize ∧
    (chunks data).flatten = data ∧
    (∀ c ∈ chunks data, c ≠ [] ∧ c.length ≤ chunkSize) ∧
    (∀ i, i + 1 < (chunks data).length → ((chunks data).getD i []).length = chunkSize) := by
  have hF : 0 < chunkSize := by decide
  exact ⟨by decide, chunksF_length chunkSize hF data, chunksF_flatten chunkSize hF data,
    chunksF_mem chunkSize hF data, chunksF_full chunkSize hF data⟩

/-- Witness for C2 at a concrete 16385-byte buffer: two frames, the first full. -/
theorem c2_buffer_partition_witness :
    (chunks (List.replicate 16385 0)).length = 2 ∧
    ((chunks (List.replicate 16385 0)).getD 0 []).length = chunkSize := by
  obtain ⟨hF, hlen, hflat, hmem, hfull⟩ := c2_buffer_partition (List.replicate 16385 0)
  have h2 : (chunks (List.replicate 16385 0)).length = 2 := by
    rw [hlen, List.length_replicate, hF]
  exact ⟨h2, hfull 0 (by rw [h2]; omega)⟩

/-- C3: when the join response lacks the success indicator, no audio message is ever
sent and the session is not left open (every connection opening in the trace is matched
by a close). -/
theorem c3_no_ack_no_audio (c : Creds) (env : Env) (mid path : String) (pwd : Option String)
    (h : strIn "success" env.response = false) :
    audioSends (play_audio_to_meeting c env mid path pwd).1 = [] ∧
    openCount (play_audio_to_meeting c env mid path pwd).1 ≤
      closeCount (play_audio_to_meeting c env mid path pwd).1 := by
  cases hc : env.connectOk with
  | false =>
    simp [play_audio_to_meeting, tryBody, connect_to_meeting, hc, finallyStage,
      audioSends, audioPayload, openCount, closeCount, isOpenEv, isClose]
  | true =>
    cases hr : env.recvOk with
    | false =>
      simp [play_audio_to_meeting, tryBody, connect_to_meeting, hc, hr, finallyStage,
        audioSends, audioPayload, openCount, closeCount, isOpenEv, isClose]
    | true =>
      simp [play_audio_to_meeting, tryBody, connect_to_meeting, hc, hr, h, finallyStage,
        audioSends, audioPayload, openCount, closeCount, isOpenEv, isClose]

/-- Witness for C3: a concrete run whose join response is `"denied"`. -/
theorem c3_no_ack_no_audio_witness :
    audioSends (play_audio_to_meeting sampleCreds envNoAck "123" "song.mp3" none).1 = [] ∧
    openCount (play_audio_to_meeting sampleCreds envNoAck "123" "song.mp3" none).1 ≤
      closeCount (play_audio_to_meeting sampleCreds envNoAck "123" "song.mp3" none).1 :=
  c3_no_ack_no_audio sampleCreds envNoAck "123" "song.mp3" none (by decide)

/-- C4: the claim says that on success the still-open connection handle is returned.
In this acknowledged join, `_connect_to_meeting` does await exactly one response and
does signal success, but the handle it returns is already closed (`isOpen = false`):
the `async with websockets.connect(...)` block closed the connection when it was
exited via `return websocket` - the trace ends with the `close()` call, before the
handle is handed to the caller. -/
theorem c4_returns_closed_handle :
    (connect_to_meeting sampleCreds envAck "123" none).2 =
      Except.ok (some { isOpen := false }) ∧
    recvCount (connect_to_meeting sampleCreds envAck "123" none).1 = 1 ∧
    (connect_to_meeting sampleCreds envAck "123" none).1.getLast? = some Event.closeCall :=
  ⟨rfl, by decide, by decide⟩

/-- C5 counterexample: the claim says the signed payload binds the participant role
constant `role = 0`, but the f-string `f'...{1}'` appends the constant `1`; at a
concrete input the generated signature differs from the role-0 signature the spec
describes. -/
theorem c5_role_counterexample :
    generate_meeting_signature sampleCreds 30000 "123" ≠
      spec_generate_meeting_signature sampleCreds 30000 "123" := by decide

/-- C5 (amended): the join-signature generator computes
`timestamp = now_ms - 30000`, builds the payload binding the SDK key, the meeting
identifier, that timestamp and the fixed constant `1` (not the role constant `0`),
and signs it with the SDK secret under HMAC-SHA256. -/
theorem c5_signature_binds_one (c : Creds) (nowMs : Nat) (mid : String) :
    generate_meeting_signature c nowMs mid =
      jwtEncode (JwtPayload.hash (c.sdk_key ++ mid ++ pyStr ((nowMs : Int) - 30000) ++ "1"))
        c.sdk_secret "HS256" := rfl

/-- C6: the claim (spec scenario A) says a 40000-byte buffer yields exactly 3 frames
sent (16384, 16384, 7232) followed by the close and a success report.  The partition
indeed has shape `[16384, 16384, 7232]`, but the run sends *zero* audio frames: the
handle returned by `_connect_to_meeting` is already closed, so the first
`websocket.send` raises, the error is printed and swallowed, and `Finished playing
audio` is never printed. -/
theorem c6_scenario_a_no_frames :
    audioSends (play_audio_to_meeting sampleCreds envScenarioA "123" "song.mp3" none).1 = [] ∧
    (play_audio_to_meeting sampleCreds envScenarioA "123" "song.mp3" none).2 =
      Outcome.normal ∧
    Event.print "Finished playing audio" ∉
      (play_audio_to_meeting sampleCreds envScenarioA "123" "song.mp3" none).1 ∧
    Event.print "Error during playback" ∈
      (play_audio_to_meeting sampleCreds envScenarioA "123" "song.mp3" none).1 ∧
    (chunks envScenarioA.audioData).map List.length = [16384, 16384, 7232] := by
  have hF : 0 < chunkSize := by decide
  have hne : ∀ n : Nat, 0 < n → List.replicate n (0 : Nat) ≠ [] := by
    intro n hn h
    have h2 := congrArg List.length h
    simp at h2
    omega
  have t1 : List.take chunkSize (List.replicate 40000 (0 : Nat)) = List.replicate 16384 0 := by
    rw [List.take_replicate]
    exact congrArg (fun n => List.replicate n (0 : Nat)) (by decide)
  have d1 : List.drop chunkSize (List.replicate 40000 (0 : Nat)) = List.replicate 23616 0 := by
    rw [List.drop_replicate]
    exact congrArg (fun n => List.replicate n (0 : Nat)) (by decide)
  have t2 : List.take chunkSize (List.replicate 23616 (0 : Nat)) = List.replicate 16384 0 := by
    rw [List.take_replicate]
    exact congrArg (fun n => List.replicate n (0 : Nat)) (by decide)
  have d2 : List.drop chunkSize (List.replicate 23616 (0 : Nat)) = List.replicate 7232 0 := by
    rw [List.drop_replicate]
    exact congrArg (fun n => List.replicate n (0 : Nat)) (by decide)
  have t3 : List.take chunkSize (List.replicate 7232 (0 : Nat)) = List.replicate 7232 0 := by
    rw [List.take_replicate]
    exact congrArg (fun n => List.replicate n (0 : Nat)) (by decide)
  have d3 : List.drop chunkSize (List.replicate 7232 (0 : Nat)) = [] := by
    rw [List.drop_replicate, show 7232 - chunkSize = 0 from by decide, List.replicate_zero]
  have hchunks : chunks (List.replicate 40000 (0 : Nat)) =
      [List.replicate 16384 0, List.replicate 16384 0, List.replicate 7232 0] := by
    rw [chunks, chunksF_cons chunkSize hF _ (hne 40000 (by norm_num)), t1, d1,
      chunksF_cons chunkSize hF _ (hne 23616 (by norm_num)), t2, d2,
      chunksF_cons chunkSize hF _ (hne 7232 (by norm_num)), t3, d3, chunksF_nil]
  have hdata : envScenarioA.audioData = List.replicate 40000 0 := rfl
  have hcons : chunks envScenarioA.audioData =
      List.replicate 16384 0 :: [List.replicate 16384 0, List.replicate 7232 0] := by
    rw [hdata, hchunks]
  obtain ⟨h1, h2, h3, h4⟩ :=
    play_ack_closed_aborts sampleCreds envScenarioA rfl rfl (by decide) rfl _ _ hcons
  refine ⟨h1, h2, h3, h4, ?_⟩
  rw [hdata, hchunks]
  simp only [List.map_cons, List.map_nil, List.length_replicate]

/-- C7 counterexample: a failed join is a core error, yet `play_audio_to_meeting`
returns normally (the failure is only printed, nothing is reported to the invoking
layer), contradicting the claim that every core error is reported as a clear
failure rather than turning into a successful-looking return. -/
theorem c7_error_swallowed :
    (connect_to_meeting sampleCreds envNoAck "123" none).2 = Except.ok none ∧
    Event.print "Failed to connect to meeting" ∈
      (play_audio_to_meeting sampleCreds envNoAck "123" "song.mp3" none).1 ∧
    (play_audio_to_meeting sampleCreds envNoAck "123" "song.mp3" none).2 =
      Outcome.normal :=
  ⟨rfl, by decide, by decide⟩

/-- C7 (amended): core errors are caught inside `play_audio_to_meeting` and reported
only as printed diagnostics - the operation itself returns normally on every path
(except for the `NameError` the cleanup stage raises when the join step itself raised),
so no failure value reaches the invoking layer; and no operation in the core retries
internally: at most one connection attempt, at most one join request, and the audio
messages sent are an in-order take-prefix of the frame sequence (no frame is ever
re-sent or re-ordered). -/
theorem c7_errors_printed_not_propagated (c : Creds) (env : Env) (mid path : String)
    (pwd : Option String) :
    ((play_audio_to_meeting c env mid path pwd).2 = Outcome.normal ∨
      (play_audio_to_meeting c env mid path pwd).2 = Outcome.nameError) ∧
    openCount (play_audio_to_meeting c env mid path pwd).1 ≤ 1 ∧
    joinCount (play_audio_to_meeting c env mid path pwd).1 ≤ 1 ∧
    (∃ k, audioSends (play_audio_to_meeting c env mid path pwd).1 =
      (chunks env.audioData).take k) ∧
    (env.connectOk = true → env.recvOk = true → strIn "success" env.response = false →
      Event.print "Failed to connect to meeting" ∈
          (play_audio_to_meeting c env mid path pwd).1 ∧
        (play_audio_to_meeting c env mid path pwd).2 = Outcome.normal) := by
  obtain ⟨h1, h2, h3⟩ := play_trace_shape c env mid path pwd
  refine ⟨play_outcome_cases c env mid path pwd, h1, h2, h3, ?_⟩
  intro hc hr hs
  constructor
  · simp [play_audio_to_meeting, tryBody, connect_to_meeting, hc, hr, hs, finallyStage]
  · simp [play_audio_to_meeting, tryBody, connect_to_meeting, hc, hr, hs, finallyStage]

/-- Witness for C7 (amended) at a concrete run with a join failure. -/
theorem c7_errors_printed_not_propagated_witness :
    ((play_audio_to_meeting sampleCreds envNoAck "123" "song.mp3" none).2 =
        Outcome.normal ∨
      (play_audio_to_meeting sampleCreds envNoAck "123" "song.mp3" none).2 =
        Outcome.nameError) ∧
    openCount (play_audio_to_meeting sampleCreds envNoAck "123" "song.mp3" none).1 ≤ 1 ∧
    joinCount (play_audio_to_meeting sampleCreds envNoAck "123" "song.mp3" none).1 ≤ 1 ∧
    (∃ k, audioSends (play_audio_to_meeting sampleCreds envNoAck "123" "song.mp3" none).1 =
      (chunks envNoAck.audioData).take k) ∧
    (envNoAck.connectOk = true → envNoAck.recvOk = true →
      strIn "success" envNoAck.response = false →
      Event.print "Failed to connect to meeting" ∈
          (play_audio_to_meeting sampleCreds envNoAck "123" "song.mp3" none).1 ∧
        (play_audio_to_meeting sampleCreds envNoAck "123" "song.mp3" none).2 =
          Outcome.normal) :=
  c7_errors_printed_not_propagated sampleCreds envNoAck "123" "song.mp3" none

/-- C8: two calls to the join-signature generator whose derived timestamps differ
produce different signature values, while the signed payload verifiably binds the SDK
key, the meeting identifier and the derived timestamp. -/
theorem c8_signature_time_unique (c : Creds) (mid : String) (n1 n2 : Nat)
    (h : (n1 : Int) - 30000 ≠ (n2 : Int) - 30000) :
    generate_meeting_signature c n1 mid ≠ generate_meeting_signature c n2 mid ∧
    (generate_meeting_signature c n1 mid).payload =
      JwtPayload.hash (c.sdk_key ++ mid ++ pyStr ((n1 : Int) - 30000) ++ "1") :=
  ⟨generate_meeting_signature_inj c mid h, rfl⟩

/-- Witness for C8: call instants one millisecond apart. -/
theorem c8_signature_time_unique_witness :
    generate_meeting_signature sampleCreds 31000 "123" ≠
      generate_meeting_signature sampleCreds 31001 "123" ∧
    (generate_meeting_signature sampleCreds 31000 "123").payload =
      JwtPayload.hash (sampleCreds.sdk_key ++ "123" ++ pyStr ((31000 : Int) - 30000) ++ "1") :=
  c8_signature_time_unique sampleCreds "123" 31000 31001 (by decide)

/-- C9: the auth-token generator issues a token whose `iss` claim is the API key and
whose `exp` claim is the call instant plus 5000 seconds, signed with the API secret
under HMAC-SHA256 (and, being a pure function of its inputs, it has no side effects). -/
theorem c9_auth_token_claims (c : Creds) (nowS : Nat) :
    issuerClaim (generate_jwt_token c nowS) = some c.api_key ∧
    expiryClaim (generate_jwt_token c nowS) = some (nowS + 5000) ∧
    (generate_jwt_token c nowS).key = c.api_secret ∧
    (generate_jwt_token c nowS).alg = "HS256" :=
  ⟨rfl, rfl, rfl, rfl⟩

/-- C10: the claim says the cleanup condition `if websocket:` is always well-defined.
When `websockets.connect` raises, `_connect_to_meeting` propagates the exception
before `websocket = await ...` assigns, so the local is unbound when the `finally`
block evaluates it, and the cleanup stage itself raises `NameError`. -/
theorem c10_cleanup_raises_name_error :
    (tryBody sampleCreds envConnectFail "123" "song.mp3" none).websocketVar = none ∧
    (play_audio_to_meeting sampleCreds envConnectFail "123" "song.mp3" none).2 =
      Outcome.nameError :=
  ⟨rfl, rfl⟩

end ZoomAudioBot
